import Mathlib

/-
  Verification of the AC pulse counter sketch (src/AC_Pulse_Counter.ino).

  The sketch is a single-threaded polling loop: every SAMPLE_INTERVAL
  milliseconds it reads an analog sample, applies hysteresis to get a raw
  logic state, debounces that state, pairs confirmed rising/falling edges
  into pulses, validates pulse widths, and accumulates statistics that a
  periodic reporter prints.

  Embedding conventions:
  * All global variables of the sketch (lines 29-45) are collected in the
    `State` structure; C++ zero-initialisation gives `initialState`.
  * `unsigned long` millisecond timestamps are modelled as `Nat`, read as
    the unwrapped value of the monotonic `millis()` clock.  For the
    executions considered (clock below 2^32 ms, timestamps monotone) the
    C modular subtraction `a - b` of the wrapped 32-bit values equals the
    Nat subtraction `a - b` of the unwrapped values, so the comparisons
    and durations below coincide with the C ones.
  * The analog sample (C `int`, range 0..1023) is a `Nat`.
  * Serial printing is I/O glue outside the core; a confirmed transition
    is observed as an `Option Edge` output of the sampling step, and the
    periodic summary as a `Report` record.  The C `float` arithmetic of
    the average rate (line 172) is modelled exactly over `ℚ`.
  * `sampleStep` is the body of the sampling branch (lines 80-148),
    split into the sketch's four stages; `reportStep` is the reporting
    branch (lines 152-181); `loopStep` is one iteration of `loop()`
    (lines 75-182); `run` folds `sampleStep` over the instants at which
    the 1 ms sample gate fires, collecting the confirmed transitions.
-/

set_option autoImplicit false

namespace ACPulse

/-- Line 20: sample every 1 ms. -/
def SAMPLE_INTERVAL : Nat := 1

/-- Line 21: report statistics every 5 s. -/
def REPORT_PERIOD : Nat := 5000

/-- Line 22: threshold for detecting HIGH. -/
def HIGH_THRESHOLD : Nat := 532

/-- Line 23: threshold for detecting LOW. -/
def LOW_THRESHOLD : Nat := 492

/-- Line 24: minimum valid pulse width (ms). -/
def MIN_PULSE_WIDTH : Nat := 70

/-- Line 25: maximum valid pulse width (ms). -/
def MAX_PULSE_WIDTH : Nat := 1000

/-- Line 26: debounce time (ms). -/
def DEBOUNCE_TIME : Nat := 10

/-- Direction of a confirmed stable-state transition (lines 105-111):
rising when the new stable state is HIGH, falling when it is LOW. -/
inductive Edge where
  | rising
  | falling
deriving DecidableEq, Repr

/-- The sketch's global mutable variables (lines 29-45).
`currentState`, `previousState`, `stableState` use the sketch's encoding
false = LOW, true = HIGH. -/
structure State where
  currentValue : Nat
  currentState : Bool
  previousState : Bool
  stableState : Bool
  lastStateChangeTime : Nat
  pulseStartTime : Nat
  pulseEndTime : Nat
  pulseDuration : Nat
  lastReportTime : Nat
  lastSampleTime : Nat
  totalPulseCount : Nat
  invalidPulseCount : Nat
  lastPulseDuration : Nat
  minPulseDuration : Nat
  maxPulseDuration : Nat
deriving DecidableEq, Repr

/-- C++ zero initialisation of the globals (lines 29-45). -/
def initialState : State :=
  { currentValue := 0
    currentState := false
    previousState := false
    stableState := false
    lastStateChangeTime := 0
    pulseStartTime := 0
    pulseEndTime := 0
    pulseDuration := 0
    lastReportTime := 0
    lastSampleTime := 0
    totalPulseCount := 0
    invalidPulseCount := 0
    lastPulseDuration := 0
    minPulseDuration := 0
    maxPulseDuration := 0 }

/-- `setup()` (lines 47-73), with `v` the first analog reading and `t`
the value of `millis()` during setup.  Note that lines 58-62 assign
`previousState` and `stableState` from the first reading but leave
`currentState` at its zero-initialised value `false`. -/
def setup (v : Nat) (t : Nat) : State :=
  { initialState with
      lastReportTime := t
      lastSampleTime := t
      currentValue := v
      previousState := decide (HIGH_THRESHOLD < v)
      stableState := decide (HIGH_THRESHOLD < v)
      lastStateChangeTime := t }

/-- Hysteresis state update (lines 86-91): above `HIGH_THRESHOLD` the
state becomes HIGH, below `LOW_THRESHOLD` it becomes LOW, otherwise it
keeps its previous value. -/
def hysteresis (v : Nat) (st : Bool) : Bool :=
  if HIGH_THRESHOLD < v then true
  else if v < LOW_THRESHOLD then false
  else st

/-- Pulse-width validation condition of line 114. -/
def validPulse (d : Nat) : Bool :=
  decide (MIN_PULSE_WIDTH ≤ d ∧ d ≤ MAX_PULSE_WIDTH)

/-- Classification and statistics update on a completed pulse of
duration `d` (lines 113-143): a valid pulse bumps `totalPulseCount`,
records `lastPulseDuration` and updates the min/max statistics; an
invalid pulse only bumps `invalidPulseCount`. -/
def recordPulse (s : State) (d : Nat) : State :=
  if validPulse d then
    let a := { s with totalPulseCount := s.totalPulseCount + 1, lastPulseDuration := d }
    let b := if a.minPulseDuration = 0 ∨ d < a.minPulseDuration then
               { a with minPulseDuration := d }
             else a
    if b.maxPulseDuration < d then { b with maxPulseDuration := d } else b
  else
    { s with invalidPulseCount := s.invalidPulseCount + 1 }

/-- Lines 80-91: note the sample time, read the sample, and apply the
hysteresis update to `currentState`. -/
def applyHysteresis (s : State) (t v : Nat) : State :=
  { s with
      lastSampleTime := t
      currentValue := v
      currentState := hysteresis v s.currentState }

/-- Lines 93-98: when the raw state flipped on this tick, restart the
debounce timer and track the new raw value. -/
def noteRawChange (s : State) (t : Nat) : State :=
  if s.currentState ≠ s.previousState then
    { s with lastStateChangeTime := t, previousState := s.currentState }
  else s

/-- Lines 100-148: once the raw state has been stable for
`DEBOUNCE_TIME`, commit a stable-state transition.  A rising edge
records the pulse start; a falling edge closes the pulse, classifies
its duration and updates the statistics. -/
def debounceCommit (s : State) (t : Nat) : State × Option Edge :=
  if DEBOUNCE_TIME ≤ t - s.lastStateChangeTime then
    if s.currentState ≠ s.stableState then
      if s.currentState then
        ({ s with pulseStartTime := t, stableState := s.currentState }, some Edge.rising)
      else
        let s1 := recordPulse
          { s with pulseEndTime := t, pulseDuration := t - s.pulseStartTime }
          (t - s.pulseStartTime)
        ({ s1 with stableState := s1.currentState }, some Edge.falling)
    else (s, none)
  else (s, none)

/-- One sampling tick (the body of the `if` at line 79, lines 80-148),
at time `t` with analog reading `v`. -/
def sampleStep (s : State) (t v : Nat) : State × Option Edge :=
  debounceCommit (noteRawChange (applyHysteresis s t v) t) t

/-- A periodic summary record (lines 153-176).  The `pulsesPerSecond`
field is the value line 172 computes, `totalPulseCount / ((t - 0) /
1000.0)`, with the C float arithmetic modelled exactly over `ℚ`; the
sketch prints it only when `totalPulseCount > 0` (line 160). -/
structure Report where
  totalPulseCount : Nat
  invalidPulseCount : Nat
  lastPulseDuration : Nat
  minPulseDuration : Nat
  maxPulseDuration : Nat
  pulsesPerSecond : ℚ
deriving DecidableEq, Repr

/-- The summary emitted at time `t` (lines 153-176). -/
def mkReport (s : State) (t : Nat) : Report :=
  { totalPulseCount := s.totalPulseCount
    invalidPulseCount := s.invalidPulseCount
    lastPulseDuration := s.lastPulseDuration
    minPulseDuration := s.minPulseDuration
    maxPulseDuration := s.maxPulseDuration
    pulsesPerSecond := (s.totalPulseCount : ℚ) / (((t : ℚ) - 0) / 1000) }

/-- The reporting branch (lines 152-181): every `REPORT_PERIOD` ms emit
a summary and remember the report time. -/
def reportStep (s : State) (t : Nat) : State × Option Report :=
  if REPORT_PERIOD ≤ t - s.lastReportTime then
    ({ s with lastReportTime := t }, some (mkReport s t))
  else (s, none)

/-- One iteration of `loop()` (lines 75-182) at time `t` with analog
reading `v`: the sampling branch runs when `SAMPLE_INTERVAL` has
elapsed since the last sample, then the reporting branch runs. -/
def loopStep (s : State) (t v : Nat) : State × Option Edge × Option Report :=
  let p := if SAMPLE_INTERVAL ≤ t - s.lastSampleTime then sampleStep s t v else (s, none)
  let q := reportStep p.1 t
  (q.1, p.2, q.2)

/-- Run the sampling step over a list of `(time, sample)` ticks — the
instants at which the 1 ms sample gate of line 79 fires — collecting
the confirmed transitions in order. -/
def run (s : State) (ticks : List (Nat × Nat)) : State × List Edge :=
  match ticks with
  | [] => (s, [])
  | (t, v) :: rest =>
      let p := sampleStep s t v
      let q := run p.1 rest
      (q.1, p.2.toList ++ q.2)

/-- A tick on which the debounce stage cannot commit: after this tick's
hysteresis update and debounce-timer restart, either the raw state
already equals the accepted stable state, or less than `DEBOUNCE_TIME`
has elapsed since the last raw flip. -/
def quietTick (s : State) (t v : Nat) : Bool :=
  let raw := hysteresis v s.currentState
  let lsc := if raw ≠ s.previousState then t else s.lastStateChangeTime
  raw == s.stableState || decide (t - lsc < DEBOUNCE_TIME)

/-- Every tick of the list is quiet, threading the state through the
sampling step. -/
def quietTicks (s : State) : List (Nat × Nat) → Bool
  | [] => true
  | (t, v) :: rest => quietTick s t v && quietTicks (sampleStep s t v).1 rest

/-! ### Projection lemmas for the stage functions -/

@[simp] lemma recordPulse_currentState (s : State) (d : Nat) :
    (recordPulse s d).currentState = s.currentState := by
  simp only [recordPulse]; split_ifs <;> rfl

@[simp] lemma recordPulse_previousState (s : State) (d : Nat) :
    (recordPulse s d).previousState = s.previousState := by
  simp only [recordPulse]; split_ifs <;> rfl

@[simp] lemma recordPulse_stableState (s : State) (d : Nat) :
    (recordPulse s d).stableState = s.stableState := by
  simp only [recordPulse]; split_ifs <;> rfl

@[simp] lemma recordPulse_lastStateChangeTime (s : State) (d : Nat) :
    (recordPulse s d).lastStateChangeTime = s.lastStateChangeTime := by
  simp only [recordPulse]; split_ifs <;> rfl

@[simp] lemma recordPulse_pulseStartTime (s : State) (d : Nat) :
    (recordPulse s d).pulseStartTime = s.pulseStartTime := by
  simp only [recordPulse]; split_ifs <;> rfl

@[simp] lemma recordPulse_pulseEndTime (s : State) (d : Nat) :
    (recordPulse s d).pulseEndTime = s.pulseEndTime := by
  simp only [recordPulse]; split_ifs <;> rfl

@[simp] lemma recordPulse_pulseDuration (s : State) (d : Nat) :
    (recordPulse s d).pulseDuration = s.pulseDuration := by
  simp only [recordPulse]; split_ifs <;> rfl

lemma recordPulse_totalPulseCount (s : State) (d : Nat) :
    (recordPulse s d).totalPulseCount =
      if validPulse d then s.totalPulseCount + 1 else s.totalPulseCount := by
  simp only [recordPulse]; split_ifs <;> rfl

lemma recordPulse_invalidPulseCount (s : State) (d : Nat) :
    (recordPulse s d).invalidPulseCount =
      if validPulse d then s.invalidPulseCount else s.invalidPulseCount + 1 := by
  simp only [recordPulse]; split_ifs <;> rfl

lemma recordPulse_lastPulseDuration (s : State) (d : Nat) :
    (recordPulse s d).lastPulseDuration =
      if validPulse d then d else s.lastPulseDuration := by
  simp only [recordPulse]; split_ifs <;> rfl

lemma recordPulse_minPulseDuration (s : State) (d : Nat) :
    (recordPulse s d).minPulseDuration =
      if validPulse d = true ∧ (s.minPulseDuration = 0 ∨ d < s.minPulseDuration) then d
      else s.minPulseDuration := by
  simp only [recordPulse]
  split_ifs with h1 h2 h3 h4 h5 <;> simp_all

lemma recordPulse_maxPulseDuration (s : State) (d : Nat) :
    (recordPulse s d).maxPulseDuration =
      if validPulse d = true ∧ s.maxPulseDuration < d then d
      else s.maxPulseDuration := by
  simp only [recordPulse]
  split_ifs with h1 h2 h3 h4 h5 <;> simp_all

lemma pre_currentState (s : State) (t v : Nat) :
    (noteRawChange (applyHysteresis s t v) t).currentState = hysteresis v s.currentState := by
  unfold noteRawChange applyHysteresis; split_ifs <;> rfl

lemma pre_previousState (s : State) (t v : Nat) :
    (noteRawChange (applyHysteresis s t v) t).previousState = hysteresis v s.currentState := by
  unfold noteRawChange applyHysteresis
  split_ifs with h
  · rfl
  · simpa using (not_ne_iff.mp h).symm

lemma pre_stableState (s : State) (t v : Nat) :
    (noteRawChange (applyHysteresis s t v) t).stableState = s.stableState := by
  unfold noteRawChange applyHysteresis; split_ifs <;> rfl

lemma pre_lastStateChangeTime (s : State) (t v : Nat) :
    (noteRawChange (applyHysteresis s t v) t).lastStateChangeTime =
      if hysteresis v s.currentState ≠ s.previousState then t else s.lastStateChangeTime := by
  unfold noteRawChange applyHysteresis
  split_ifs <;> simp_all

lemma pre_pulseStartTime (s : State) (t v : Nat) :
    (noteRawChange (applyHysteresis s t v) t).pulseStartTime = s.pulseStartTime := by
  unfold noteRawChange applyHysteresis; split_ifs <;> rfl

lemma pre_totalPulseCount (s : State) (t v : Nat) :
    (noteRawChange (applyHysteresis s t v) t).totalPulseCount = s.totalPulseCount := by
  unfold noteRawChange applyHysteresis; split_ifs <;> rfl

lemma pre_invalidPulseCount (s : State) (t v : Nat) :
    (noteRawChange (applyHysteresis s t v) t).invalidPulseCount = s.invalidPulseCount := by
  unfold noteRawChange applyHysteresis; split_ifs <;> rfl

lemma pre_lastPulseDuration (s : State) (t v : Nat) :
    (noteRawChange (applyHysteresis s t v) t).lastPulseDuration = s.lastPulseDuration := by
  unfold noteRawChange applyHysteresis; split_ifs <;> rfl

lemma pre_minPulseDuration (s : State) (t v : Nat) :
    (noteRawChange (applyHysteresis s t v) t).minPulseDuration = s.minPulseDuration := by
  unfold noteRawChange applyHysteresis; split_ifs <;> rfl

lemma pre_maxPulseDuration (s : State) (t v : Nat) :
    (noteRawChange (applyHysteresis s t v) t).maxPulseDuration = s.maxPulseDuration := by
  unfold noteRawChange applyHysteresis; split_ifs <;> rfl

lemma debounceCommit_none_early (s : State) (t : Nat)
    (h : t - s.lastStateChangeTime < DEBOUNCE_TIME) :
    debounceCommit s t = (s, none) := by
  unfold debounceCommit; rw [if_neg (by omega)]

lemma debounceCommit_none_same (s : State) (t : Nat)
    (h : s.currentState = s.stableState) :
    debounceCommit s t = (s, none) := by
  unfold debounceCommit
  split_ifs with h1 h2 <;> simp_all

lemma debounceCommit_rising (s : State) (t : Nat)
    (hd : DEBOUNCE_TIME ≤ t - s.lastStateChangeTime)
    (hc : s.currentState = true) (hs : s.stableState = false) :
    debounceCommit s t =
      ({ s with pulseStartTime := t, stableState := s.currentState }, some Edge.rising) := by
  unfold debounceCommit
  rw [if_pos hd, if_pos (by simp [hc, hs]), if_pos hc]

lemma debounceCommit_falling (s : State) (t : Nat)
    (hd : DEBOUNCE_TIME ≤ t - s.lastStateChangeTime)
    (hc : s.currentState = false) (hs : s.stableState = true) :
    debounceCommit s t =
      ({ recordPulse { s with pulseEndTime := t, pulseDuration := t - s.pulseStartTime }
           (t - s.pulseStartTime) with
           stableState := s.currentState }, some Edge.falling) := by
  unfold debounceCommit
  rw [if_pos hd, if_pos (by simp [hc, hs]), if_neg (by simp [hc])]
  simp [hc]

lemma debounceCommit_currentState (s : State) (t : Nat) :
    (debounceCommit s t).1.currentState = s.currentState := by
  unfold debounceCommit
  split_ifs <;> simp

lemma sampleStep_currentState (s : State) (t v : Nat) :
    (sampleStep s t v).1.currentState = hysteresis v s.currentState := by
  unfold sampleStep
  rw [debounceCommit_currentState, pre_currentState]

/-- Characterisation of a sampling tick that confirms a falling
transition: the duration is measured from `pulseStartTime` and the
statistics are updated per the line 114 classification. -/
lemma sampleStep_falling (s : State) (t v : Nat)
    (hraw : hysteresis v s.currentState = false)
    (hdeb : DEBOUNCE_TIME ≤
      t - (if hysteresis v s.currentState ≠ s.previousState then t else s.lastStateChangeTime))
    (hst : s.stableState = true) :
    (sampleStep s t v).2 = some Edge.falling ∧
    (sampleStep s t v).1.pulseDuration = t - s.pulseStartTime ∧
    (sampleStep s t v).1.totalPulseCount =
      (if validPulse (t - s.pulseStartTime) then s.totalPulseCount + 1 else s.totalPulseCount) ∧
    (sampleStep s t v).1.invalidPulseCount =
      (if validPulse (t - s.pulseStartTime) then s.invalidPulseCount
       else s.invalidPulseCount + 1) ∧
    (sampleStep s t v).1.lastPulseDuration =
      (if validPulse (t - s.pulseStartTime) then t - s.pulseStartTime
       else s.lastPulseDuration) ∧
    (sampleStep s t v).1.minPulseDuration =
      (if validPulse (t - s.pulseStartTime) = true ∧
          (s.minPulseDuration = 0 ∨ t - s.pulseStartTime < s.minPulseDuration) then
        t - s.pulseStartTime
       else s.minPulseDuration) ∧
    (sampleStep s t v).1.maxPulseDuration =
      (if validPulse (t - s.pulseStartTime) = true ∧
          s.maxPulseDuration < t - s.pulseStartTime then
        t - s.pulseStartTime
       else s.maxPulseDuration) ∧
    (sampleStep s t v).1.stableState = false := by
  have hc := pre_currentState s t v
  have hs := pre_stableState s t v
  have hl := pre_lastStateChangeTime s t v
  have hps := pre_pulseStartTime s t v
  unfold sampleStep
  rw [debounceCommit_falling _ t (by rw [hl]; exact hdeb) (by rw [hc]; exact hraw)
        (by rw [hs]; exact hst)]
  simp only [hraw, recordPulse_totalPulseCount, recordPulse_invalidPulseCount,
    recordPulse_lastPulseDuration, recordPulse_minPulseDuration, recordPulse_maxPulseDuration,
    recordPulse_pulseDuration]
  simp [hps, hc, hraw, pre_totalPulseCount, pre_invalidPulseCount, pre_lastPulseDuration,
    pre_minPulseDuration, pre_maxPulseDuration]

/-! ### Claims -/

/-- Claim C1: on every sampling tick, with `raw` the post-hysteresis
state and `lsc` the debounce timer after this tick's raw-flip update
(lines 93-98), the stable state becomes `raw` and a confirmed
transition is emitted (rising iff `raw` is HIGH) exactly when
`DEBOUNCE_TIME ≤ t - lsc` and `raw` differs from the stable state; the
check is level-triggered, so the commit fires on any tick at or after
the interval elapses, and no tick before it emits anything. -/
theorem debounce_commit_level_triggered (s : State) (t v : Nat) (raw : Bool) (lsc : Nat)
    (hraw : raw = hysteresis v s.currentState)
    (hlsc : lsc = (if raw ≠ s.previousState then t else s.lastStateChangeTime)) :
    (sampleStep s t v).1.stableState =
      (if DEBOUNCE_TIME ≤ t - lsc ∧ raw ≠ s.stableState then raw else s.stableState) ∧
    (sampleStep s t v).2 =
      (if DEBOUNCE_TIME ≤ t - lsc ∧ raw ≠ s.stableState then
        some (if raw then Edge.rising else Edge.falling)
       else none) := by
  have hc := pre_currentState s t v
  have hs := pre_stableState s t v
  have hl := pre_lastStateChangeTime s t v
  subst hraw
  rw [← hlsc] at hl
  by_cases hd : DEBOUNCE_TIME ≤ t - lsc
  · by_cases hne : hysteresis v s.currentState = s.stableState
    · unfold sampleStep
      rw [debounceCommit_none_same _ t (by rw [hc, hs]; exact hne)]
      simp [hs, hd, hne]
    · cases hcur : hysteresis v s.currentState with
      | true =>
          have hst : s.stableState = false := by
            rw [hcur] at hne
            exact eq_false_of_ne_true (fun h => hne h.symm)
          unfold sampleStep
          rw [debounceCommit_rising _ t (by rw [hl]; exact hd) (by rw [hc]; exact hcur)
                (by rw [hs]; exact hst)]
          simp [hc, hcur, hd, hst]
      | false =>
          have hst : s.stableState = true := by
            rw [hcur] at hne
            exact eq_true_of_ne_false (fun h => hne h.symm)
          unfold sampleStep
          rw [debounceCommit_falling _ t (by rw [hl]; exact hd) (by rw [hc]; exact hcur)
                (by rw [hs]; exact hst)]
          simp [hc, hcur, hd, hst]
  · unfold sampleStep
    rw [debounceCommit_none_early _ t (by rw [hl]; omega)]
    simp [hs, hd]

/-- Witness for C1: with the stable state HIGH, the raw state LOW and
the debounce timer at 0, the tick at t = 10 (exactly the interval)
commits a falling transition, while the tick at t = 5 commits
nothing. -/
theorem debounce_commit_level_triggered_witness :
    (sampleStep { initialState with stableState := true } 10 400).2 = some Edge.falling ∧
    (sampleStep { initialState with stableState := true } 5 400).2 = none := by
  have h1 := (debounce_commit_level_triggered { initialState with stableState := true }
    10 400 false 0 (by decide) (by decide)).2
  have h2 := (debounce_commit_level_triggered { initialState with stableState := true }
    5 400 false 0 (by decide) (by decide)).2
  rw [h1, h2]
  constructor
  · rw [if_pos (by decide)]
    rfl
  · rw [if_neg (by decide)]

/-- Claim C2: pulse validity is the closed interval
`[MIN_PULSE_WIDTH, MAX_PULSE_WIDTH]`: both endpoints are valid, both
endpoints shifted by one are invalid, and on every confirmed falling
transition the classification of the computed duration is exactly this
interval test (a valid duration bumps `totalPulseCount`, an invalid one
bumps `invalidPulseCount`). -/
theorem pulse_validity_closed_interval :
    (∀ d : Nat, validPulse d = true ↔ MIN_PULSE_WIDTH ≤ d ∧ d ≤ MAX_PULSE_WIDTH) ∧
    validPulse MIN_PULSE_WIDTH = true ∧
    validPulse MAX_PULSE_WIDTH = true ∧
    validPulse (MIN_PULSE_WIDTH - 1) = false ∧
    validPulse (MAX_PULSE_WIDTH + 1) = false ∧
    (∀ (s : State) (t v : Nat),
      hysteresis v s.currentState = false →
      DEBOUNCE_TIME ≤
        t - (if hysteresis v s.currentState ≠ s.previousState then t
             else s.lastStateChangeTime) →
      s.stableState = true →
      ((sampleStep s t v).1.totalPulseCount = s.totalPulseCount + 1 ↔
        MIN_PULSE_WIDTH ≤ t - s.pulseStartTime ∧ t - s.pulseStartTime ≤ MAX_PULSE_WIDTH) ∧
      ((sampleStep s t v).1.invalidPulseCount = s.invalidPulseCount + 1 ↔
        ¬(MIN_PULSE_WIDTH ≤ t - s.pulseStartTime ∧ t - s.pulseStartTime ≤ MAX_PULSE_WIDTH))) := by
  refine ⟨fun d => by simp [validPulse], by decide, by decide, by decide, by decide,
    fun s t v hraw hdeb hst => ?_⟩
  obtain ⟨-, -, htot, hinv, -, -, -, -⟩ := sampleStep_falling s t v hraw hdeb hst
  by_cases hv : validPulse (t - s.pulseStartTime) = true
  · have hb : MIN_PULSE_WIDTH ≤ t - s.pulseStartTime ∧ t - s.pulseStartTime ≤ MAX_PULSE_WIDTH := by
      simpa [validPulse] using hv
    rw [htot, hinv, if_pos hv, if_pos hv]
    constructor
    · exact ⟨fun _ => hb, fun _ => rfl⟩
    · exact ⟨fun h => absurd h (by omega), fun h => absurd hb h⟩
  · have hb : ¬(MIN_PULSE_WIDTH ≤ t - s.pulseStartTime ∧ t - s.pulseStartTime ≤ MAX_PULSE_WIDTH) := by
      simpa [validPulse] using hv
    rw [htot, hinv, if_neg hv, if_neg hv]
    constructor
    · exact ⟨fun h => absurd h (by omega), fun h => absurd h hb⟩
    · exact ⟨fun _ => hb, fun _ => rfl⟩

/-- Witness for C2: a falling transition at t = 100 with the pulse
start at 0 yields duration 100, which is valid, so the valid-pulse
counter is incremented. -/
theorem pulse_validity_closed_interval_witness :
    (sampleStep { initialState with stableState := true } 100 400).1.totalPulseCount =
      ({ initialState with stableState := true } : State).totalPulseCount + 1 :=
  ((pulse_validity_closed_interval.2.2.2.2.2 { initialState with stableState := true }
    100 400 (by decide) (by decide) (by decide)).1).mpr (by decide)

/-- Claim C3: the hysteresis step maps a sample above `HIGH_THRESHOLD`
to HIGH, a sample below `LOW_THRESHOLD` to LOW, and leaves the state
unchanged on any sample in the closed dead zone between the two
thresholds. -/
theorem hysteresis_step (v : Nat) (st : Bool) :
    (HIGH_THRESHOLD < v → hysteresis v st = true) ∧
    (v < LOW_THRESHOLD → hysteresis v st = false) ∧
    (LOW_THRESHOLD ≤ v → v ≤ HIGH_THRESHOLD → hysteresis v st = st) := by
  refine ⟨fun h => ?_, fun h => ?_, fun h1 h2 => ?_⟩
  · unfold hysteresis
    rw [if_pos h]
  · unfold hysteresis
    rw [if_neg (by unfold HIGH_THRESHOLD; unfold LOW_THRESHOLD at h; omega), if_pos h]
  · unfold hysteresis
    rw [if_neg (by omega), if_neg (by omega)]

/-- Witness for C3: 600 drives the state HIGH, 400 drives it LOW, and
500 (inside the dead zone) leaves a HIGH state HIGH. -/
theorem hysteresis_step_witness :
    hysteresis 600 false = true ∧ hysteresis 400 true = false ∧ hysteresis 500 true = true :=
  ⟨(hysteresis_step 600 false).1 (by decide),
   (hysteresis_step 400 true).2.1 (by decide),
   (hysteresis_step 500 true).2.2 (by decide) (by decide)⟩

/-- Counterexample to C4's concrete instance: with the sketch's
`MIN_PULSE_WIDTH = 70`, a pulse of duration 50 is not valid, so
feeding durations 100, 50, 200 to the aggregator yields
`totalPulseCount = 2` and `minPulseDuration = 100` (with one invalid
pulse), not the claimed `totalValidCount = 3` and `min = 50`. -/
theorem aggregator_min50_counterexample :
    validPulse 50 = false ∧
    ([100, 50, 200].foldl recordPulse initialState).totalPulseCount = 2 ∧
    ([100, 50, 200].foldl recordPulse initialState).minPulseDuration = 100 ∧
    ([100, 50, 200].foldl recordPulse initialState).invalidPulseCount = 1 := by
  decide

/-- Claim C4 (amended): on a valid pulse the aggregator increments
`totalPulseCount`, sets `lastPulseDuration`, updates the minimum only
on the first valid pulse or a smaller duration, updates the maximum
only on a larger duration, and leaves `invalidPulseCount` alone; on an
invalid pulse only `invalidPulseCount` is incremented.  For durations
100, 50, 200 in order the 50 ms pulse is invalid (below
`MIN_PULSE_WIDTH = 70`), so the result is `last = 200`, `min = 100`,
`max = 200`, `totalPulseCount = 2`, `invalidPulseCount = 1`.  The
hypothesis `minPulseDuration = 0 ↔ totalPulseCount = 0` is the
reachable-state reading of the sketch's `minPulseDuration == 0`
first-pulse test (valid durations are at least 70, hence positive). -/
theorem aggregator_update_rule (s : State) (d : Nat)
    (hfirst : s.minPulseDuration = 0 ↔ s.totalPulseCount = 0) :
    (validPulse d = true →
      (recordPulse s d).totalPulseCount = s.totalPulseCount + 1 ∧
      (recordPulse s d).lastPulseDuration = d ∧
      (recordPulse s d).minPulseDuration =
        (if s.totalPulseCount = 0 ∨ d < s.minPulseDuration then d else s.minPulseDuration) ∧
      (recordPulse s d).maxPulseDuration =
        (if s.maxPulseDuration < d then d else s.maxPulseDuration) ∧
      (recordPulse s d).invalidPulseCount = s.invalidPulseCount) ∧
    (validPulse d = false →
      (recordPulse s d).invalidPulseCount = s.invalidPulseCount + 1 ∧
      (recordPulse s d).totalPulseCount = s.totalPulseCount ∧
      (recordPulse s d).lastPulseDuration = s.lastPulseDuration ∧
      (recordPulse s d).minPulseDuration = s.minPulseDuration ∧
      (recordPulse s d).maxPulseDuration = s.maxPulseDuration) ∧
    ([100, 50, 200].foldl recordPulse initialState).lastPulseDuration = 200 ∧
    ([100, 50, 200].foldl recordPulse initialState).minPulseDuration = 100 ∧
    ([100, 50, 200].foldl recordPulse initialState).maxPulseDuration = 200 ∧
    ([100, 50, 200].foldl recordPulse initialState).totalPulseCount = 2 ∧
    ([100, 50, 200].foldl recordPulse initialState).invalidPulseCount = 1 := by
  refine ⟨fun hv => ?_, fun hv => ?_, by decide, by decide, by decide, by decide, by decide⟩
  · refine ⟨?_, ?_, ?_, ?_, ?_⟩
    · rw [recordPulse_totalPulseCount, if_pos hv]
    · rw [recordPulse_lastPulseDuration, if_pos hv]
    · rw [recordPulse_minPulseDuration]
      by_cases hc : s.minPulseDuration = 0 ∨ d < s.minPulseDuration
      · rw [if_pos ⟨hv, hc⟩, if_pos (by rw [← hfirst]; exact hc)]
      · rw [if_neg (by tauto), if_neg (by rw [hfirst] at hc; tauto)]
    · rw [recordPulse_maxPulseDuration]
      by_cases hc : s.maxPulseDuration < d
      · rw [if_pos ⟨hv, hc⟩, if_pos hc]
      · rw [if_neg (by tauto), if_neg hc]
    · rw [recordPulse_invalidPulseCount, if_pos hv]
  · rw [recordPulse_invalidPulseCount, recordPulse_totalPulseCount,
      recordPulse_lastPulseDuration, recordPulse_minPulseDuration,
      recordPulse_maxPulseDuration, hv]
    simp

/-- Witness for C4 (amended): a first valid pulse of 100 ms increments
the valid counter; an invalid 30 ms pulse increments only the invalid
counter. -/
theorem aggregator_update_rule_witness :
    (recordPulse initialState 100).totalPulseCount = initialState.totalPulseCount + 1 ∧
    (recordPulse initialState 30).invalidPulseCount = initialState.invalidPulseCount + 1 :=
  ⟨((aggregator_update_rule initialState 100 (by decide)).1 (by decide)).1,
   ((aggregator_update_rule initialState 30 (by decide)).2.1 (by decide)).1⟩

/-- Claim C10: a confirmed falling transition whose computed duration
is outside the valid interval increments `invalidPulseCount` by exactly
one and leaves `totalPulseCount`, `lastPulseDuration`,
`minPulseDuration` and `maxPulseDuration` unchanged. -/
theorem invalid_pulse_frame (s : State) (t v : Nat)
    (hraw : hysteresis v s.currentState = false)
    (hdeb : DEBOUNCE_TIME ≤
      t - (if hysteresis v s.currentState ≠ s.previousState then t
           else s.lastStateChangeTime))
    (hst : s.stableState = true)
    (hinv : validPulse (t - s.pulseStartTime) = false) :
    (sampleStep s t v).2 = some Edge.falling ∧
    (sampleStep s t v).1.invalidPulseCount = s.invalidPulseCount + 1 ∧
    (sampleStep s t v).1.totalPulseCount = s.totalPulseCount ∧
    (sampleStep s t v).1.lastPulseDuration = s.lastPulseDuration ∧
    (sampleStep s t v).1.minPulseDuration = s.minPulseDuration ∧
    (sampleStep s t v).1.maxPulseDuration = s.maxPulseDuration := by
  obtain ⟨he, -, htot, hinv2, hlast, hmin, hmax, -⟩ := sampleStep_falling s t v hraw hdeb hst
  refine ⟨he, ?_, ?_, ?_, ?_, ?_⟩
  · rw [hinv2, if_neg (by rw [hinv]; simp)]
  · rw [htot, if_neg (by rw [hinv]; simp)]
  · rw [hlast, if_neg (by rw [hinv]; simp)]
  · rw [hmin, if_neg (by rw [hinv]; simp)]
  · rw [hmax, if_neg (by rw [hinv]; simp)]

lemma run_nil (s : State) : run s [] = (s, []) := rfl

lemma run_cons (s : State) (t v : Nat) (tl : List (Nat × Nat)) :
    run s ((t, v) :: tl) =
      ((run (sampleStep s t v).1 tl).1,
        (sampleStep s t v).2.toList ++ (run (sampleStep s t v).1 tl).2) := rfl

lemma quiet_sampleStep (s : State) (t v : Nat) (h : quietTick s t v = true) :
    (sampleStep s t v).2 = none ∧ (sampleStep s t v).1.stableState = s.stableState := by
  simp only [quietTick, Bool.or_eq_true, beq_iff_eq, decide_eq_true_eq] at h
  unfold sampleStep
  rcases h with h | h
  · rw [debounceCommit_none_same _ t (by rw [pre_currentState, pre_stableState]; exact h)]
    exact ⟨rfl, pre_stableState s t v⟩
  · rw [debounceCommit_none_early _ t (by rw [pre_lastStateChangeTime]; exact h)]
    exact ⟨rfl, pre_stableState s t v⟩

lemma run_quiet (s : State) (ticks : List (Nat × Nat)) (h : quietTicks s ticks = true) :
    (run s ticks).2 = [] ∧ (run s ticks).1.stableState = s.stableState := by
  induction ticks generalizing s with
  | nil => exact ⟨rfl, rfl⟩
  | cons hd tl ih =>
      obtain ⟨t, v⟩ := hd
      simp only [quietTicks, Bool.and_eq_true] at h
      obtain ⟨h1, h2⟩ := h
      obtain ⟨e1, e2⟩ := quiet_sampleStep s t v h1
      obtain ⟨r1, r2⟩ := ih _ h2
      rw [run_cons]
      exact ⟨by simp [e1, r1], by rw [r2, e2]⟩

lemma run_hold_settled (s : State) (ticks : List (Nat × Nat))
    (hcs : s.currentState = s.stableState)
    (hold : ∀ p ∈ ticks, hysteresis (p : Nat × Nat).2 s.currentState = s.currentState) :
    (run s ticks).2 = [] ∧ (run s ticks).1.stableState = s.stableState := by
  induction ticks generalizing s with
  | nil => exact ⟨rfl, rfl⟩
  | cons hd tl ih =>
      obtain ⟨t, v⟩ := hd
      have hv := hold (t, v) (by simp)
      have hq : quietTick s t v = true := by
        simp only [quietTick, Bool.or_eq_true, beq_iff_eq, decide_eq_true_eq]
        exact Or.inl (by rw [hv, hcs])
      obtain ⟨e1, e2⟩ := quiet_sampleStep s t v hq
      have hc2 : (sampleStep s t v).1.currentState = s.currentState := by
        rw [sampleStep_currentState, hv]
      have ihret := ih (sampleStep s t v).1 (by rw [hc2, e2]; exact hcs)
        (fun p hp => by rw [hc2]; exact hold p (by simp [hp]))
      rw [run_cons]
      exact ⟨by simp [e1, ihret.1], by rw [ihret.2, e2]⟩

lemma sampleStep_commit (s : State) (t v : Nat)
    (hprev : s.previousState = s.currentState)
    (hraw : hysteresis v s.currentState = s.currentState)
    (hdeb : DEBOUNCE_TIME ≤ t - s.lastStateChangeTime)
    (hne : s.currentState ≠ s.stableState) :
    (sampleStep s t v).2 = some (if s.currentState then Edge.rising else Edge.falling) ∧
    (sampleStep s t v).1.currentState = s.currentState ∧
    (sampleStep s t v).1.stableState = s.currentState := by
  have hl : (noteRawChange (applyHysteresis s t v) t).lastStateChangeTime =
      s.lastStateChangeTime := by
    rw [pre_lastStateChangeTime, if_neg (by rw [hraw, hprev]; simp)]
  cases hcur : s.currentState with
  | true =>
      have hst : s.stableState = false := by
        rw [hcur] at hne
        exact eq_false_of_ne_true (fun h => hne h.symm)
      rw [hcur] at hraw
      unfold sampleStep
      rw [debounceCommit_rising _ t (by rw [hl]; exact hdeb)
            (by rw [pre_currentState, hcur]; exact hraw)
            (by rw [pre_stableState]; exact hst)]
      simp [pre_currentState, hraw, hcur]
  | false =>
      have hst : s.stableState = true := by
        rw [hcur] at hne
        exact eq_true_of_ne_false (fun h => hne h.symm)
      rw [hcur] at hraw
      unfold sampleStep
      rw [debounceCommit_falling _ t (by rw [hl]; exact hdeb)
            (by rw [pre_currentState, hcur]; exact hraw)
            (by rw [pre_stableState]; exact hst)]
      simp [recordPulse_currentState, pre_currentState, hraw, hcur]

lemma sampleStep_early (s : State) (t v : Nat)
    (hprev : s.previousState = s.currentState)
    (hraw : hysteresis v s.currentState = s.currentState)
    (hdeb : t - s.lastStateChangeTime < DEBOUNCE_TIME) :
    (sampleStep s t v).2 = none ∧
    (sampleStep s t v).1.currentState = s.currentState ∧
    (sampleStep s t v).1.previousState = s.currentState ∧
    (sampleStep s t v).1.stableState = s.stableState ∧
    (sampleStep s t v).1.lastStateChangeTime = s.lastStateChangeTime := by
  have hl : (noteRawChange (applyHysteresis s t v) t).lastStateChangeTime =
      s.lastStateChangeTime := by
    rw [pre_lastStateChangeTime, if_neg (by rw [hraw, hprev]; simp)]
  unfold sampleStep
  rw [debounceCommit_none_early _ t (by rw [hl]; exact hdeb)]
  exact ⟨rfl, by rw [pre_currentState, hraw], by rw [pre_previousState, hraw],
    pre_stableState s t v, hl⟩

lemma run_hold_commit (s : State) (ticks : List (Nat × Nat))
    (hprev : s.previousState = s.currentState)
    (hold : ∀ p ∈ ticks, hysteresis (p : Nat × Nat).2 s.currentState = s.currentState)
    (hne : s.currentState ≠ s.stableState)
    (hex : ∃ p ∈ ticks, DEBOUNCE_TIME ≤ (p : Nat × Nat).1 - s.lastStateChangeTime) :
    (run s ticks).2 = [if s.currentState then Edge.rising else Edge.falling] := by
  induction ticks generalizing s with
  | nil => simp at hex
  | cons hd tl ih =>
      obtain ⟨t, v⟩ := hd
      have hv := hold (t, v) (by simp)
      by_cases hd2 : DEBOUNCE_TIME ≤ t - s.lastStateChangeTime
      · obtain ⟨e1, e2, e3⟩ := sampleStep_commit s t v hprev hv hd2 hne
        have tail := run_hold_settled (sampleStep s t v).1 tl (by rw [e2, e3])
          (fun p hp => by rw [e2]; exact hold p (by simp [hp]))
        rw [run_cons, e1, tail.1]
        simp
      · obtain ⟨e1, e2, e3, e4, e5⟩ := sampleStep_early s t v hprev hv (by omega)
        have hex2 : ∃ p ∈ tl,
            DEBOUNCE_TIME ≤ (p : Nat × Nat).1 - (sampleStep s t v).1.lastStateChangeTime := by
          rw [e5]
          obtain ⟨p, hp, hpd⟩ := hex
          rcases List.mem_cons.mp hp with heq | hmem
          · rw [heq] at hpd
            simp at hpd
            exact absurd hpd hd2
          · exact ⟨p, hmem, hpd⟩
        have ihres := ih (sampleStep s t v).1 (by rw [e3, e2])
          (fun p hp => by rw [e2]; exact hold p (by simp [hp]))
          (by rw [e2, e4]; exact hne) hex2
        rw [run_cons, e1]
        simp only [Option.toList_none, List.nil_append]
        rw [ihres, e2]

/-- Counterexample to C6 as stated: starting settled LOW, the raw state
flips HIGH at t = 5 and back LOW at t = 9 — consecutive opposite flips
4 ms apart, strictly within the 10 ms debounce interval — and the
final LOW state is then held through t = 30 and t = 50, i.e. for well
over the debounce interval.  The claim demands exactly one confirmed
transition once the final state has been held, but zero transitions are
emitted, because the final settled state equals the stable state from
before the flicker. -/
theorem debounce_suppression_counterexample :
    quietTicks (setup 400 0) [(5, 600), (9, 400)] = true ∧
    9 - 5 < DEBOUNCE_TIME ∧
    DEBOUNCE_TIME ≤ 50 - 9 ∧
    (run (setup 400 0) [(5, 600), (9, 400), (30, 400), (50, 400)]).2 = [] := by
  decide

/-- Claim C6 (amended): (1) any run of quiet ticks — ticks on which the
raw state either equals the accepted stable state or flipped less than
`DEBOUNCE_TIME` ago, which is the situation throughout a flip sequence
whose consecutive opposite flips fall strictly within the debounce
interval of each other — emits zero confirmed transitions and leaves
the stable state unchanged; (2) from a settled raw state held
constantly afterwards, if that final state equals the stable state the
run emits nothing, and if it differs then as soon as some tick falls at
or beyond the debounce interval the run emits exactly one confirmed
transition (rising iff the final state is HIGH).  Intermediate flickers
never produce an emitted transition. -/
theorem debounce_suppression_amended :
    (∀ (s : State) (ticks : List (Nat × Nat)), quietTicks s ticks = true →
      (run s ticks).2 = [] ∧ (run s ticks).1.stableState = s.stableState) ∧
    (∀ (s : State) (ticks : List (Nat × Nat)),
      s.previousState = s.currentState →
      (∀ p ∈ ticks, hysteresis (p : Nat × Nat).2 s.currentState = s.currentState) →
      ((s.currentState = s.stableState → (run s ticks).2 = []) ∧
       (s.currentState ≠ s.stableState →
        (∃ p ∈ ticks, DEBOUNCE_TIME ≤ (p : Nat × Nat).1 - s.lastStateChangeTime) →
        (run s ticks).2 = [if s.currentState then Edge.rising else Edge.falling]))) :=
  ⟨fun s ticks h => run_quiet s ticks h,
   fun s ticks hprev hold =>
     ⟨fun hcs => (run_hold_settled s ticks hcs hold).1,
      fun hne hex => run_hold_commit s ticks hprev hold hne hex⟩⟩

/-- Witness for C6 (amended): the two-flip flicker within the debounce
interval emits nothing, and a settled LOW raw state held against a HIGH
stable state emits exactly one falling transition once a tick reaches
the debounce interval. -/
theorem debounce_suppression_amended_witness :
    (run (setup 400 0) [(5, 600), (9, 400)]).2 = [] ∧
    (run { initialState with stableState := true } [(3, 400), (12, 400)]).2 =
      [Edge.falling] := by
  have hA := (debounce_suppression_amended.1 (setup 400 0) [(5, 600), (9, 400)]
    (by decide)).1
  have hB := (debounce_suppression_amended.2 { initialState with stableState := true }
    [(3, 400), (12, 400)] (by decide) (by decide)).2 (by decide) (by decide)
  exact ⟨hA, by simpa using hB⟩

/-- Claim C5: an execution with a confirmed falling transition and no
preceding confirmed rising transition.  `setup` at t = 0 reads 600
(above `HIGH_THRESHOLD`), so `stableState` starts HIGH and no rising
edge is ever confirmed; the signal stays at 600 until t = 90, drops to
400, and the falling transition is confirmed at t = 100.  The trace
contains only that falling edge, yet the classifier computes duration
100 - 0 from the never-assigned `pulseStartTime` (still its
zero-initialised value), finds it inside the valid interval, and counts
it exactly like an ordinary valid pulse — no distinguishable handling
of the missing rising edge. -/
theorem spurious_falling_scored_normally :
    (setup 600 0).pulseStartTime = 0 ∧
    (run (setup 600 0) [(1, 600), (90, 400), (100, 400)]).2 = [Edge.falling] ∧
    (run (setup 600 0) [(1, 600), (90, 400), (100, 400)]).1.pulseDuration = 100 ∧
    validPulse 100 = true ∧
    (run (setup 600 0) [(1, 600), (90, 400), (100, 400)]).1.totalPulseCount = 1 ∧
    (run (setup 600 0) [(1, 600), (90, 400), (100, 400)]).1.lastPulseDuration = 100 := by
  decide

/-- Claim C7: a run whose samples all lie strictly between
`LOW_THRESHOLD` and `HIGH_THRESHOLD` never changes the raw logic state
`currentState`, whatever the oscillation inside the band. -/
theorem dead_zone_stability (s : State) (ticks : List (Nat × Nat))
    (h : ∀ p ∈ ticks,
      LOW_THRESHOLD < (p : Nat × Nat).2 ∧ (p : Nat × Nat).2 < HIGH_THRESHOLD) :
    (run s ticks).1.currentState = s.currentState := by
  induction ticks generalizing s with
  | nil => rfl
  | cons hd tl ih =>
      obtain ⟨t, v⟩ := hd
      have hv := h (t, v) (by simp)
      have hrest : ∀ p ∈ tl,
          LOW_THRESHOLD < (p : Nat × Nat).2 ∧ (p : Nat × Nat).2 < HIGH_THRESHOLD :=
        fun p hp => h p (by simp [hp])
      show (run (sampleStep s t v).1 tl).1.currentState = s.currentState
      rw [ih _ hrest, sampleStep_currentState]
      exact (hysteresis_step v s.currentState).2.2 (by omega) (by omega)

/-- Witness for C7: two in-band samples leave a HIGH state HIGH. -/
theorem dead_zone_stability_witness :
    (run { initialState with currentState := true } [(1, 500), (2, 520)]).1.currentState =
      ({ initialState with currentState := true } : State).currentState :=
  dead_zone_stability { initialState with currentState := true } [(1, 500), (2, 520)]
    (by decide)

/-- Claim C8 (code bug): `setup` reads a first sample of 600, which
indicates HIGH, but lines 58-62 only assign `previousState` and
`stableState` — `currentState` is left at its zero-initialised LOW, so
the current logic state is NOT initialized from the first sample.  The
mismatch then fires an artificial transition: with every later sample
inside the dead zone (500, never below `LOW_THRESHOLD`), a confirmed
falling transition is emitted at t = 11 and a pulse is counted, even
though the signal never crossed low. -/
theorem phantom_falling_from_setup :
    HIGH_THRESHOLD < 600 ∧
    (setup 600 0).currentState = false ∧
    (setup 600 0).stableState = true ∧
    LOW_THRESHOLD ≤ 500 ∧
    (run (setup 600 0) [(1, 500), (11, 500)]).2 = [Edge.falling] ∧
    (run (setup 600 0) [(1, 500), (11, 500)]).1.invalidPulseCount = 1 := by
  decide

/-- Claim C9: the rate in the periodic summary is
`totalPulseCount / (t / 1000)` with `t` the milliseconds elapsed since
process start (line 172 divides by `currentTime - 0`), a
cumulative-since-start rate: it depends only on the cumulative valid
count and the total elapsed time, not on the count or time since the
previous report. -/
theorem report_rate_cumulative (s : State) (t : Nat)
    (_hp : 0 < s.totalPulseCount)
    (hr : REPORT_PERIOD ≤ t - s.lastReportTime) :
    (reportStep s t).2 = some (mkReport s t) ∧
    (mkReport s t).pulsesPerSecond = (s.totalPulseCount : ℚ) / ((t : ℚ) / 1000) ∧
    (∀ s2 : State, s2.totalPulseCount = s.totalPulseCount →
      (mkReport s2 t).pulsesPerSecond = (mkReport s t).pulsesPerSecond) := by
  refine ⟨?_, ?_, fun s2 h2 => ?_⟩
  · unfold reportStep
    rw [if_pos hr]
  · unfold mkReport
    rw [sub_zero]
  · unfold mkReport
    rw [h2]

/-- Witness for C9: with 3 valid pulses at t = 6000 ms the summary is
emitted and its rate is 3 / 6 pulses per second. -/
theorem report_rate_cumulative_witness :
    (reportStep { initialState with totalPulseCount := 3 } 6000).2 =
      some (mkReport { initialState with totalPulseCount := 3 } 6000) ∧
    (mkReport { initialState with totalPulseCount := 3 } 6000).pulsesPerSecond =
      ((({ initialState with totalPulseCount := 3 } : State).totalPulseCount : ℚ) /
        (((6000 : Nat) : ℚ) / 1000)) := by
  have h := report_rate_cumulative { initialState with totalPulseCount := 3 } 6000
    (by decide) (by decide)
  exact ⟨h.1, h.2.1⟩

/-- Witness for C10: a falling transition at t = 20 (duration 20, below
the 70 ms minimum) bumps only the invalid counter. -/
theorem invalid_pulse_frame_witness :
    validPulse 20 = false ∧
    (sampleStep { initialState with stableState := true } 20 400).1.invalidPulseCount =
      ({ initialState with stableState := true } : State).invalidPulseCount + 1 ∧
    (sampleStep { initialState with stableState := true } 20 400).1.totalPulseCount =
      ({ initialState with stableState := true } : State).totalPulseCount :=
  ⟨by decide,
   (invalid_pulse_frame { initialState with stableState := true } 20 400
      (by decide) (by decide) (by decide) (by decide)).2.1,
   (invalid_pulse_frame { initialState with stableState := true } 20 400
      (by decide) (by decide) (by decide) (by decide)).2.2.1⟩

end ACPulse
